import Mathlib

/-!
Verification of the in-memory todo REST service (`src/backend/app.py`).

The service keeps a list `todos` of `{id, text}` records and a counter
`next_id` (initially 1).  The three handlers `get_todos`, `create_todo`
and `delete_todo` are embedded below as pure functions over an explicit
`AppState`; JSON request bodies are embedded as an inductive `JVal`
and a dictionary is a list of key/value bindings.  A Python-level
exception (e.g. calling `.strip()` on a non-string) is modelled by the
handler returning `none`.
-/

/-- A stored todo record: `{'id': next_id, 'text': data['text'].strip()}`. -/
structure TodoItem where
  id : Nat
  text : String
deriving Repr, DecidableEq

/-- The module-level mutable state of `app.py`: the list `todos`
(initially `[]`) and the counter `next_id` (initially `1`). -/
structure AppState where
  todos : List TodoItem
  next_id : Nat
deriving Repr, DecidableEq

/-- State at process start: `todos = []`, `next_id = 1`. -/
def initState : AppState := { todos := [], next_id := 1 }

/-- A JSON value, as parsed from the request body by `request.json`. -/
inductive JVal where
  | jstr (s : String)
  | jnum (n : Int)
  | jarr (xs : List JVal)
  | jbool (b : Bool)
  | jnull

/-- Dictionary lookup: `data['text']` / the `'text' in data` test. -/
def lookupKey (data : List (String × JVal)) (k : String) : Option JVal :=
  (data.find? (fun p => p.1 == k)).map (fun p => p.2)

/-- Python's `str.strip()` with no argument: drop leading and trailing
whitespace characters. -/
def pyStrip (s : String) : String :=
  String.mk (((s.data.dropWhile Char.isWhitespace).reverse.dropWhile
    Char.isWhitespace).reverse)

/-- Python's `.strip()` attribute access: defined (trims surrounding
whitespace) only when the value is a string; any other value raises
`AttributeError`, modelled as `none`. -/
def strip : JVal → Option String
  | .jstr s => some (pyStrip s)
  | _ => none

/-- Responses of the create handler: 201 with the new item, or 400 with
an error message. -/
inductive CreateResponse where
  | created (item : TodoItem)
  | badRequest (msg : String)
deriving Repr, DecidableEq

/-- Responses of the delete handler: 204 with empty body, or 404 with an
error message. -/
inductive DeleteResponse where
  | noContent
  | notFound (msg : String)
deriving Repr, DecidableEq

/-- `GET /api/todos`: returns the current list and status 200; reads the
state without modifying it. -/
def get_todos (s : AppState) : List TodoItem × Nat :=
  (s.todos, 200)

/-- `POST /api/todos` (`create_todo` in `app.py`).  Mirrors the handler
line by line: `if not data or 'text' not in data` (a missing body is
`none`, and `not data` on a dict tests emptiness) gives 400
"Missing text field"; then `data['text'].strip()` (undefined for a
non-string value, hence the outer `Option`); an empty stripped string
gives 400 "Text cannot be empty"; otherwise the new item is appended,
`next_id` incremented, and the item returned with 201. -/
def create_todo : Option (List (String × JVal)) → AppState →
    Option (AppState × CreateResponse × Nat)
  | none, s => some (s, .badRequest "Missing text field", 400)
  | some d, s =>
    if d.isEmpty then
      some (s, .badRequest "Missing text field", 400)
    else
      match lookupKey d "text" with
      | none => some (s, .badRequest "Missing text field", 400)
      | some v =>
        match strip v with
        | none => none
        | some t =>
          if t = "" then
            some (s, .badRequest "Text cannot be empty", 400)
          else
            some ({ todos := s.todos ++ [{ id := s.next_id, text := t }],
                    next_id := s.next_id + 1 },
                  .created { id := s.next_id, text := t }, 201)

/-- `DELETE /api/todos/<int:todo_id>` (`delete_todo` in `app.py`):
`next((t for t in todos if t['id'] == todo_id), None)`; if no match,
404 "Todo not found"; otherwise `todos = [t for t in todos if t['id'] !=
todo_id]` and 204 with empty body. -/
def delete_todo (todo_id : Nat) (s : AppState) :
    AppState × DeleteResponse × Nat :=
  match s.todos.find? (fun t => t.id == todo_id) with
  | none => (s, .notFound "Todo not found", 404)
  | some _ =>
    ({ todos := s.todos.filter (fun t => t.id != todo_id),
       next_id := s.next_id }, .noContent, 204)

/-- A client request, for reasoning over sequences of operations. -/
inductive Op where
  | create (data : Option (List (String × JVal)))
  | delete (id : Nat)
  | list

/-- The state after one request.  A create whose validation step raises
(`create_todo … = none`) leaves the state unchanged: the exception is
raised before any mutation. -/
def runOp (s : AppState) : Op → AppState
  | .create d =>
    match create_todo d s with
    | some (s', _, _) => s'
    | none => s
  | .delete i => (delete_todo i s).1
  | .list => s

/-- The state after a sequence of requests. -/
def runOps (s : AppState) (ops : List Op) : AppState :=
  ops.foldl runOp s

/-- A state the running process can actually be in. -/
def Reachable (s : AppState) : Prop :=
  ∃ ops : List Op, runOps initState ops = s

/-- The id returned by a request, when it is a successful create. -/
def createdId (s : AppState) : Op → Option Nat
  | .create d =>
    match create_todo d s with
    | some (_, .created item, _) => some item.id
    | _ => none
  | _ => none

/-- The ids issued by the successful creates of a request sequence, in
order. -/
def issuedIds (s : AppState) : List Op → List Nat
  | [] => []
  | op :: rest => (createdId s op).toList ++ issuedIds (runOp s op) rest

/-! ### Shape lemmas for the create handler -/

/-- If the lookup of `'text'` succeeds then the dictionary is nonempty. -/
theorem lookupKey_some_not_isEmpty {d : List (String × JVal)} {k : String}
    {v : JVal} (h : lookupKey d k = some v) : d.isEmpty = false := by
  cases d with
  | nil => simp [lookupKey] at h
  | cons p rest => rfl

/-- Forward evaluation of a successful create: `'text'` maps to a string
that is nonempty after trimming. -/
theorem create_todo_ok {d : List (String × JVal)} {s : AppState} {t : String}
    (hlk : lookupKey d "text" = some (JVal.jstr t)) (ht : (pyStrip t) ≠ "") :
    create_todo (some d) s =
      some ({ todos := s.todos ++ [{ id := s.next_id, text := (pyStrip t) }],
              next_id := s.next_id + 1 },
            CreateResponse.created { id := s.next_id, text := (pyStrip t) }, 201) := by
  simp only [create_todo, lookupKey_some_not_isEmpty hlk, hlk, strip,
    Bool.false_eq_true, if_false]
  simp [ht]

/-- Inverse shape of a successful create: the item got id `next_id`, was
appended, the counter advanced by one, and the status is 201. -/
theorem create_todo_created_inv {d : Option (List (String × JVal))}
    {s s' : AppState} {item : TodoItem} {c : Nat}
    (h : create_todo d s = some (s', CreateResponse.created item, c)) :
    item.id = s.next_id ∧ s'.todos = s.todos ++ [item] ∧
    s'.next_id = s.next_id + 1 ∧ c = 201 := by
  cases d with
  | none => simp [create_todo] at h
  | some dd =>
    simp only [create_todo] at h
    split at h
    · simp at h
    · split at h
      · simp at h
      · split at h
        · simp at h
        · split at h
          · simp at h
          · simp only [Option.some.injEq, Prod.mk.injEq,
              CreateResponse.created.injEq] at h
            obtain ⟨h1, h2, h3⟩ := h
            subst h1; subst h2; subst h3
            exact ⟨rfl, rfl, rfl, rfl⟩

/-- Inverse shape of a rejected create: the state is unchanged and the
status is 400. -/
theorem create_todo_badRequest_inv {d : Option (List (String × JVal))}
    {s s' : AppState} {m : String} {c : Nat}
    (h : create_todo d s = some (s', CreateResponse.badRequest m, c)) :
    s' = s ∧ c = 400 := by
  cases d with
  | none =>
    simp only [create_todo, Option.some.injEq, Prod.mk.injEq] at h
    exact ⟨h.1.symm, h.2.2.symm⟩
  | some dd =>
    simp only [create_todo] at h
    split at h
    · simp only [Option.some.injEq, Prod.mk.injEq] at h
      exact ⟨h.1.symm, h.2.2.symm⟩
    · split at h
      · simp only [Option.some.injEq, Prod.mk.injEq] at h
        exact ⟨h.1.symm, h.2.2.symm⟩
      · split at h
        · simp at h
        · split at h
          · simp only [Option.some.injEq, Prod.mk.injEq] at h
            exact ⟨h.1.symm, h.2.2.symm⟩
          · simp at h

/-! ### Counter monotonicity -/

/-- No single request ever decreases `next_id`. -/
theorem runOp_nextId_le (s : AppState) (op : Op) :
    s.next_id ≤ (runOp s op).next_id := by
  cases op with
  | create d =>
    rcases h : create_todo d s with _ | ⟨s', r, c⟩
    · simp [runOp, h]
    · cases r with
      | created item =>
        obtain ⟨-, -, hn, -⟩ := create_todo_created_inv h
        simp [runOp, h, hn]
      | badRequest m =>
        obtain ⟨hs, -⟩ := create_todo_badRequest_inv h
        simp [runOp, h, hs]
  | delete i =>
    simp only [runOp, delete_todo]
    split <;> simp
  | list => exact le_refl _

/-- No request sequence ever decreases `next_id`. -/
theorem runOps_nextId_le (ops : List Op) : ∀ s : AppState,
    s.next_id ≤ (runOps s ops).next_id := by
  induction ops with
  | nil => intro s; exact le_refl _
  | cons op rest ih =>
    intro s
    exact le_trans (runOp_nextId_le s op) (ih (runOp s op))

/-! ### The data-model invariant on reachable states -/

/-- Invariant of §3 of the spec: stored ids are pairwise distinct and
every stored id is below `next_id`. -/
def StoreInv (s : AppState) : Prop :=
  s.todos.Pairwise (fun a b => a.id ≠ b.id) ∧ ∀ t ∈ s.todos, t.id < s.next_id

theorem StoreInv_initState : StoreInv initState :=
  ⟨List.Pairwise.nil, by intro t ht; simp [initState] at ht⟩

theorem StoreInv_runOp {s : AppState} (hs : StoreInv s) (op : Op) : StoreInv (runOp s op) := by
  cases op with
  | list => exact hs
  | delete i =>
    simp only [runOp, delete_todo]
    split
    · exact hs
    · refine ⟨hs.1.filter _, ?_⟩
      intro t ht
      exact hs.2 t (List.mem_of_mem_filter ht)
  | create d =>
    rcases h : create_todo d s with _ | ⟨s', r, c⟩
    · simpa [runOp, h] using hs
    · cases r with
      | badRequest m =>
        obtain ⟨hss, -⟩ := create_todo_badRequest_inv h
        simpa [runOp, h, hss] using hs
      | created item =>
        obtain ⟨hid, htodos, hn, -⟩ := create_todo_created_inv h
        have hrun : runOp s (Op.create d) = s' := by simp [runOp, h]
        rw [hrun]
        constructor
        · rw [htodos]
          apply List.pairwise_append.mpr
          refine ⟨hs.1, by simp, ?_⟩
          intro a ha b hb
          simp at hb
          rw [hb, hid]
          exact Nat.ne_of_lt (hs.2 a ha)
        · intro t ht
          rw [htodos] at ht
          rw [hn]
          rcases List.mem_append.mp ht with hmem | hmem
          · exact Nat.lt_succ_of_lt (hs.2 t hmem)
          · simp at hmem
            rw [hmem, hid]
            exact Nat.lt_succ_self _

theorem StoreInv_runOps (ops : List Op) : ∀ s : AppState, StoreInv s → StoreInv (runOps s ops) := by
  induction ops with
  | nil => intro s hs; exact hs
  | cons op rest ih =>
    intro s hs
    exact ih (runOp s op) (StoreInv_runOp hs op)

/-- Every reachable state satisfies the data-model invariant. -/
theorem Reachable_StoreInv {s : AppState} (h : Reachable s) : StoreInv s := by
  obtain ⟨ops, rfl⟩ := h
  exact StoreInv_runOps ops initState StoreInv_initState

/-! ### Issued ids -/

/-- A request that issues an id is a successful create: the id is the
current `next_id` and the counter advances by exactly one. -/
theorem createdId_some {s : AppState} {op : Op} {i : Nat}
    (h : createdId s op = some i) :
    i = s.next_id ∧ (runOp s op).next_id = s.next_id + 1 := by
  cases op with
  | delete j => simp [createdId] at h
  | list => simp [createdId] at h
  | create d =>
    rcases hc : create_todo d s with _ | ⟨s', r, c⟩
    · simp [createdId, hc] at h
    · cases r with
      | badRequest m => simp [createdId, hc] at h
      | created item =>
        simp only [createdId, hc, Option.some.injEq] at h
        obtain ⟨hid, -, hn, -⟩ := create_todo_created_inv hc
        have hrun : runOp s (Op.create d) = s' := by simp [runOp, hc]
        exact ⟨h ▸ hid, by rw [hrun, hn]⟩

/-- A request that issues no id leaves `next_id` unchanged. -/
theorem createdId_none {s : AppState} {op : Op}
    (h : createdId s op = none) : (runOp s op).next_id = s.next_id := by
  cases op with
  | list => rfl
  | delete j =>
    simp only [runOp, delete_todo]
    split <;> rfl
  | create d =>
    rcases hc : create_todo d s with _ | ⟨s', r, c⟩
    · simp [runOp, hc]
    · cases r with
      | created item => simp [createdId, hc] at h
      | badRequest m =>
        obtain ⟨hss, -⟩ := create_todo_badRequest_inv hc
        simp [runOp, hc, hss]

/-- Along any request sequence, every issued id lies between the starting
`next_id` (inclusive) and the final `next_id` (strict), and the issued
ids are strictly increasing in order of issue. -/
theorem issuedIds_bounds (ops : List Op) : ∀ s : AppState,
    (∀ i ∈ issuedIds s ops, s.next_id ≤ i ∧ i < (runOps s ops).next_id) ∧
    (issuedIds s ops).Pairwise (fun a b => a < b) := by
  induction ops with
  | nil =>
    intro s
    exact ⟨by simp [issuedIds], by simp [issuedIds]⟩
  | cons op rest ih =>
    intro s
    have hrun : runOps s (op :: rest) = runOps (runOp s op) rest := rfl
    obtain ⟨hb, hp⟩ := ih (runOp s op)
    rcases hcid : createdId s op with _ | i0
    · have hids : issuedIds s (op :: rest) = issuedIds (runOp s op) rest := by
        simp [issuedIds, hcid]
      have hnext := createdId_none hcid
      rw [hids, hrun]
      refine ⟨?_, hp⟩
      intro i hi
      obtain ⟨h1, h2⟩ := hb i hi
      exact ⟨le_trans (le_of_eq hnext.symm) h1, h2⟩
    · obtain ⟨hi0, hn⟩ := createdId_some hcid
      have hids : issuedIds s (op :: rest) = i0 :: issuedIds (runOp s op) rest := by
        simp [issuedIds, hcid]
      have hmono := runOps_nextId_le rest (runOp s op)
      rw [hids, hrun]
      constructor
      · intro i hi
        rcases List.mem_cons.mp hi with rfl | hmem
        · refine ⟨le_of_eq hi0.symm, ?_⟩
          calc i = s.next_id := hi0
            _ < s.next_id + 1 := Nat.lt_succ_self _
            _ = (runOp s op).next_id := hn.symm
            _ ≤ (runOps (runOp s op) rest).next_id := hmono
        · obtain ⟨h1, h2⟩ := hb i hmem
          refine ⟨?_, h2⟩
          calc s.next_id ≤ s.next_id + 1 := Nat.le_succ _
            _ = (runOp s op).next_id := hn.symm
            _ ≤ i := h1
      · apply List.pairwise_cons.mpr
        refine ⟨?_, hp⟩
        intro b hbmem
        have h1 := (hb b hbmem).1
        calc i0 = s.next_id := hi0
          _ < s.next_id + 1 := Nat.lt_succ_self _
          _ = (runOp s op).next_id := hn.symm
          _ ≤ b := h1

/-- With pairwise-distinct ids, filtering out a present id removes
exactly one element. -/
theorem length_filter_ne_of_pairwise {l : List TodoItem} {i : Nat}
    (hp : l.Pairwise (fun a b => a.id ≠ b.id)) (hin : ∃ t ∈ l, t.id = i) :
    (l.filter (fun t => t.id != i)).length + 1 = l.length := by
  induction l with
  | nil => simp at hin
  | cons x xs ih =>
    obtain ⟨t0, ht0, hid⟩ := hin
    rcases List.mem_cons.mp ht0 with rfl | hmem
    · have hxs : ∀ b ∈ xs, b.id ≠ i := by
        intro b hb hbi
        exact (List.pairwise_cons.mp hp).1 b hb (by rw [hid, hbi])
      have hkeep : xs.filter (fun t => t.id != i) = xs := by
        apply List.filter_eq_self.mpr
        intro b hb
        simpa using hxs b hb
      rw [List.filter_cons_of_neg (by simpa using hid), hkeep]
      simp
    · have hx : x.id ≠ i := by
        intro hxi
        exact (List.pairwise_cons.mp hp).1 t0 hmem (by rw [hxi, hid])
      have hrec := ih (List.pairwise_cons.mp hp).2 ⟨t0, hmem, hid⟩
      rw [List.filter_cons_of_pos (by simpa using hx)]
      simpa using hrec

/-! ### The claims -/

/-- C1: a Create whose body maps `'text'` to a string that is nonempty
after trimming assigns `id = next_id`, stores the trimmed text, appends
the item at the end, increments `next_id` by exactly 1, and returns the
new item with HTTP 201. -/
theorem C1_create_success (s : AppState) (d : List (String × JVal)) (t : String)
    (hlk : lookupKey d "text" = some (JVal.jstr t)) (ht : (pyStrip t) ≠ "") :
    create_todo (some d) s =
      some ({ todos := s.todos ++ [{ id := s.next_id, text := (pyStrip t) }],
              next_id := s.next_id + 1 },
            CreateResponse.created { id := s.next_id, text := (pyStrip t) }, 201) :=
  create_todo_ok hlk ht

theorem C1_create_success_witness :
    create_todo (some [("text", JVal.jstr " Buy milk ")]) initState =
      some ({ todos := [{ id := 1, text := (pyStrip " Buy milk ") }], next_id := 2 },
            CreateResponse.created { id := 1, text := (pyStrip " Buy milk ") }, 201) :=
  C1_create_success initState [("text", JVal.jstr " Buy milk ")] " Buy milk "
    rfl (by decide)

/-- C2: over every request sequence from the initial state, the ids
returned by successful Creates are strictly increasing (hence pairwise
distinct, and never reused after a deletion), and the final `next_id`
is strictly greater than every issued id. -/
theorem C2_id_monotonicity (ops : List Op) :
    (issuedIds initState ops).Pairwise (fun a b => a < b) ∧
    ∀ i ∈ issuedIds initState ops, i < (runOps initState ops).next_id := by
  obtain ⟨hb, hp⟩ := issuedIds_bounds ops initState
  exact ⟨hp, fun i hi => (hb i hi).2⟩

theorem C2_id_monotonicity_witness :
    (issuedIds initState
        [Op.create (some [("text", JVal.jstr "a")]), Op.delete 1,
         Op.create (some [("text", JVal.jstr "b")])]).Pairwise
      (fun a b => a < b) ∧
    1 < (runOps initState
        [Op.create (some [("text", JVal.jstr "a")]), Op.delete 1,
         Op.create (some [("text", JVal.jstr "b")])]).next_id :=
  ⟨(C2_id_monotonicity _).1, (C2_id_monotonicity _).2 1 (by decide)⟩

/-- C3: in any reachable state, deleting a present id removes exactly the
matching item, shrinks the collection by exactly one, leaves `next_id`
unchanged, and answers 204 with an empty body. -/
theorem C3_delete_found (s : AppState) (i : Nat)
    (hreach : Reachable s) (hin : ∃ t ∈ s.todos, t.id = i) :
    (delete_todo i s).2.1 = DeleteResponse.noContent ∧
    (delete_todo i s).2.2 = 204 ∧
    (delete_todo i s).1.next_id = s.next_id ∧
    (delete_todo i s).1.todos.length + 1 = s.todos.length ∧
    (∀ t ∈ s.todos, t.id ≠ i → t ∈ (delete_todo i s).1.todos) ∧
    (∀ t ∈ (delete_todo i s).1.todos, t ∈ s.todos ∧ t.id ≠ i) := by
  obtain ⟨t0, ht0, hid⟩ := hin
  rcases hf : s.todos.find? (fun t => t.id == i) with _ | t1
  · exfalso
    have := List.find?_eq_none.mp hf t0 ht0
    simp [hid] at this
  · have hinv := Reachable_StoreInv hreach
    simp only [delete_todo, hf]
    refine ⟨trivial, trivial, trivial, ?_, ?_, ?_⟩
    · exact length_filter_ne_of_pairwise hinv.1 ⟨t0, ht0, hid⟩
    · intro t ht hne
      simp [List.mem_filter, ht, hne]
    · intro t ht
      obtain ⟨h1, h2⟩ := List.mem_filter.mp ht
      exact ⟨h1, by simpa using h2⟩

theorem C3_delete_found_witness :
    (delete_todo 1 { todos := [{ id := 1, text := "a" }], next_id := 2 }).2.1 =
      DeleteResponse.noContent ∧
    (delete_todo 1 { todos := [{ id := 1, text := "a" }], next_id := 2 }).2.2 = 204 ∧
    (delete_todo 1 { todos := [{ id := 1, text := "a" }], next_id := 2 }).1.next_id = 2 ∧
    (delete_todo 1 { todos := [{ id := 1, text := "a" }], next_id := 2 }).1.todos.length + 1 = 1 := by
  have h := C3_delete_found { todos := [{ id := 1, text := "a" }], next_id := 2 } 1
    ⟨[Op.create (some [("text", JVal.jstr "a")])], by decide⟩
    ⟨{ id := 1, text := "a" }, by simp, rfl⟩
  exact ⟨h.1, h.2.1, h.2.2.1, h.2.2.2.1⟩

/-- C4: a Create whose body is absent, or is a dictionary without a
`'text'` key (including the empty dictionary), answers 400 with
`{error: "Missing text field"}` and leaves the state unchanged. -/
theorem C4_missing_text (s : AppState) :
    create_todo none s =
      some (s, CreateResponse.badRequest "Missing text field", 400) ∧
    ∀ d : List (String × JVal), lookupKey d "text" = none →
      create_todo (some d) s =
        some (s, CreateResponse.badRequest "Missing text field", 400) := by
  refine ⟨rfl, ?_⟩
  intro d hd
  by_cases he : d.isEmpty = true
  · simp [create_todo, he]
  · simp [create_todo, he, hd]

theorem C4_missing_text_witness :
    create_todo none initState =
      some (initState, CreateResponse.badRequest "Missing text field", 400) ∧
    create_todo (some []) initState =
      some (initState, CreateResponse.badRequest "Missing text field", 400) :=
  ⟨(C4_missing_text initState).1, (C4_missing_text initState).2 [] rfl⟩

/-- C5: a Create whose `'text'` value is a string that is empty after
trimming answers 400 with `{error: "Text cannot be empty"}` and leaves
the state unchanged. -/
theorem C5_empty_text (s : AppState) (d : List (String × JVal)) (t : String)
    (hlk : lookupKey d "text" = some (JVal.jstr t)) (ht : pyStrip t = "") :
    create_todo (some d) s =
      some (s, CreateResponse.badRequest "Text cannot be empty", 400) := by
  simp [create_todo, lookupKey_some_not_isEmpty hlk, hlk, strip, ht]

theorem C5_empty_text_witness :
    create_todo (some [("text", JVal.jstr "   ")]) initState =
      some (initState, CreateResponse.badRequest "Text cannot be empty", 400) :=
  C5_empty_text initState [("text", JVal.jstr "   ")] "   " rfl (by decide)

/-- C6: every Create answered with status 400 leaves the collection and
the counter exactly as they were, and its body is one of the error
responses. -/
theorem C6_create_all_or_nothing (data : Option (List (String × JVal)))
    (s s' : AppState) (r : CreateResponse)
    (h : create_todo data s = some (s', r, 400)) :
    s' = s ∧ ∃ m, r = CreateResponse.badRequest m := by
  cases r with
  | badRequest m => exact ⟨(create_todo_badRequest_inv h).1, m, rfl⟩
  | created item => exact absurd (create_todo_created_inv h).2.2.2 (by decide)

theorem C6_create_all_or_nothing_witness :
    initState = initState ∧
    ∃ m, CreateResponse.badRequest "Text cannot be empty" =
      CreateResponse.badRequest m :=
  C6_create_all_or_nothing (some [("text", JVal.jstr " ")]) initState initState
    (CreateResponse.badRequest "Text cannot be empty") (by decide)

/-- C7: a Delete whose id matches no stored item answers 404 with
`{error: "Todo not found"}` and leaves the collection and the counter
unchanged. -/
theorem C7_delete_not_found (s : AppState) (i : Nat)
    (h : ∀ t ∈ s.todos, t.id ≠ i) :
    delete_todo i s = (s, DeleteResponse.notFound "Todo not found", 404) := by
  have hf : s.todos.find? (fun t => t.id == i) = none := by
    apply List.find?_eq_none.mpr
    intro t ht
    simpa using h t ht
  simp [delete_todo, hf]

theorem C7_delete_not_found_witness :
    delete_todo 1 initState =
      (initState, DeleteResponse.notFound "Todo not found", 404) :=
  C7_delete_not_found initState 1 (by intro t ht; simp [initState] at ht)

/-- C8: List returns exactly the current collection with status 200 and
modifies nothing; immediately after a successful Create the returned
sequence ends with the newly created item. -/
theorem C8_list_reflects_state (s : AppState) :
    get_todos s = (s.todos, 200) ∧ runOp s Op.list = s ∧
    ∀ (data : Option (List (String × JVal))) (s' : AppState)
      (item : TodoItem) (c : Nat),
      create_todo data s = some (s', CreateResponse.created item, c) →
      (get_todos s').1 = s.todos ++ [item] ∧
      (get_todos s').1.getLast? = some item := by
  refine ⟨rfl, rfl, ?_⟩
  intro data s' item c h
  obtain ⟨-, htodos, -, -⟩ := create_todo_created_inv h
  refine ⟨htodos, ?_⟩
  rw [show (get_todos s').1 = s'.todos from rfl, htodos,
    List.getLast?_append_cons]
  rfl

theorem C8_list_reflects_state_witness :
    get_todos initState = (([] : List TodoItem), 200) ∧
    (get_todos { todos := [{ id := 1, text := "a" }], next_id := 2 }).1.getLast? =
      some { id := 1, text := "a" } := by
  refine ⟨(C8_list_reflects_state initState).1, ?_⟩
  exact ((C8_list_reflects_state initState).2.2 (some [("text", JVal.jstr "a")])
    { todos := [{ id := 1, text := "a" }], next_id := 2 }
    { id := 1, text := "a" } 201 (by decide)).2

/-- C9: a successful Delete is an order-preserving filter: the remaining
collection is exactly the old one filtered on a differing id, it is a
sublist of the old collection (so surviving items are unchanged and keep
their relative order), and every non-matching item survives. -/
theorem C9_delete_frame (s : AppState) (i : Nat)
    (h : (s.todos.find? (fun t => t.id == i)).isSome = true) :
    (delete_todo i s).1.todos = s.todos.filter (fun t => t.id != i) ∧
    (delete_todo i s).1.todos.Sublist s.todos ∧
    ∀ t ∈ s.todos, t.id ≠ i → t ∈ (delete_todo i s).1.todos := by
  rcases hf : s.todos.find? (fun t => t.id == i) with _ | t1
  · rw [hf] at h
    simp at h
  · simp only [delete_todo, hf]
    refine ⟨trivial, List.filter_sublist _, ?_⟩
    intro t ht hne
    simp [List.mem_filter, ht, hne]

theorem C9_delete_frame_witness :
    (delete_todo 1 (AppState.mk [TodoItem.mk 1 "a", TodoItem.mk 2 "b"] 3)).1.todos =
      [TodoItem.mk 2 "b"] ∧
    (delete_todo 1 (AppState.mk [TodoItem.mk 1 "a", TodoItem.mk 2 "b"] 3)).1.todos.Sublist
      [TodoItem.mk 1 "a", TodoItem.mk 2 "b"] := by
  have h := C9_delete_frame (AppState.mk [TodoItem.mk 1 "a", TodoItem.mk 2 "b"] 3)
    1 (by decide)
  exact ⟨by rw [h.1]; rfl, h.2.1⟩

/-- C10: the empty-text check calls `.strip()` on the `'text'` value with
no type check, so create is only defined when that value is a string:
for any non-string value the handler raises (neither 400 branch is
taken), while for any string value it is defined. -/
theorem C10_nonstring_text_undefined :
    (∀ (s : AppState) (d : List (String × JVal)) (v : JVal),
      lookupKey d "text" = some v → (∀ u : String, v ≠ JVal.jstr u) →
      create_todo (some d) s = none) ∧
    (∀ (s : AppState) (d : List (String × JVal)) (t : String),
      lookupKey d "text" = some (JVal.jstr t) →
      (create_todo (some d) s).isSome = true) := by
  constructor
  · intro s d v hlk hv
    have hstrip : strip v = none := by
      cases v with
      | jstr u => exact absurd rfl (hv u)
      | jnum n => rfl
      | jarr xs => rfl
      | jbool b => rfl
      | jnull => rfl
    simp [create_todo, lookupKey_some_not_isEmpty hlk, hlk, hstrip]
  · intro s d t hlk
    by_cases ht : pyStrip t = ""
    · simp [create_todo, lookupKey_some_not_isEmpty hlk, hlk, strip, ht]
    · simp [create_todo_ok hlk ht]

theorem C10_nonstring_text_undefined_witness :
    create_todo (some [("text", JVal.jnum 5)]) initState = none ∧
    (create_todo (some [("text", JVal.jstr "x")]) initState).isSome = true :=
  ⟨C10_nonstring_text_undefined.1 initState [("text", JVal.jnum 5)] (JVal.jnum 5)
      rfl (fun _ h => JVal.noConfusion h),
   C10_nonstring_text_undefined.2 initState [("text", JVal.jstr "x")] "x" rfl⟩
